import Mathlib

/-!
Shallow embedding of the NeuroChat recommendation core (`neurochat.py`).

External collaborators (the Gemini completion service, the Google web-search
HTTP endpoint, the `json` / `re` / TextBlob library primitives and the SQLite
substrate) are modelled as explicit oracle parameters: a fallible external
call becomes an `Except Unit _` value holding either the call's result or the
exception it raised, a library parser becomes a `String -> Option _` function,
and the SQLite tables become explicit Lean lists threaded through the
functions that read and write them.  Timestamps are `Nat` (ISO-8601 strings
compare lexicographically, which on these values is the numeric order), and
the TextBlob polarity score is a rational.
-/

/-- A product dictionary as the adapters build it (`title`, `price`,
`description`, `category`, `rating`, `stock`, `brand`, `source`, optional
`link`).  Fields that Python keeps as mixed `int`/`str` display values
(`rating`, `stock`) are carried as strings. -/
structure Product where
  title : String
  price : String
  description : String
  category : String
  rating : String
  stock : String
  brand : String
  source : String
  link : String
  deriving Repr, DecidableEq

/-- One element of the JSON array the semantic prompt asks Gemini for
(lines 184-189): `title`, `price`, `description` and an optional
`category` (`item.get('category', 'General')`). -/
structure SemItem where
  title : String
  price : String
  description : String
  category : Option String
  deriving Repr, DecidableEq

/-- One item of the Google Custom Search response (`title`, `snippet`,
`link`). -/
structure WebItem where
  title : String
  snippet : String
  link : String
  deriving Repr, DecidableEq

/-- One row of the SQL join in `search_business_products` (lines 512-518):
name, description, price, category, target_emotions, stock_quantity and the
joined business name.  `price` is the stored REAL, modelled as a natural
number of rupees. -/
structure BizRow where
  name : String
  description : String
  price : Nat
  category : String
  target_emotions : String
  stock_quantity : Nat
  business_name : String
  deriving Repr, DecidableEq

/-- A row of the `successful_patterns` table (lines 104-113): rowid,
query_pattern, emotion, comma-joined successful_categories, success_count,
last_success timestamp. -/
structure PatternRow where
  id : Nat
  query_pattern : String
  emotion : String
  successful_categories : String
  success_count : Nat
  last_success : Nat
  deriving Repr, DecidableEq

/-- The dictionary `get_successful_recommendations` returns on a hit
(lines 373-376): the stored categories split on commas plus the success
count. -/
structure PatternHit where
  categories : List String
  success_count : Nat
  deriving Repr, DecidableEq

/-- A row of the `recommendation_analytics` table as inserted by
`log_recommendation_analytics` (lines 658-662). `response_time` is the
elapsed time measured at the return site. -/
structure AnalyticsRow where
  user_query : String
  user_emotion : String
  recommendation_method : String
  products_found : Nat
  response_time : Nat
  deriving Repr, DecidableEq

/-- A row of the `product_feedback` table as inserted by
`save_product_feedback` (lines 676-679). -/
structure FeedbackRow where
  product_name : String
  user_query : String
  feedback_type : String
  recommendation_source : String
  created_date : Nat
  deriving Repr, DecidableEq

/-- The two persistent tables touched by the feedback recorder. -/
structure MarketDb where
  product_feedback : List FeedbackRow
  successful_patterns : List PatternRow
  deriving Repr, DecidableEq

/- ---------------- string helpers (Python primitives) ---------------- -/

/-- `startsWithList l pat`: `pat` is a prefix of `l` (character lists). -/
def startsWithList : List Char → List Char → Bool
  | _, [] => true
  | [], _ :: _ => false
  | a :: as, b :: bs => a == b && startsWithList as bs

/-- `hasSublist l pat`: `pat` occurs contiguously inside `l`. -/
def hasSublist : List Char → List Char → Bool
  | [], pat => pat.isEmpty
  | a :: t, pat => startsWithList (a :: t) pat || hasSublist t pat

/-- Python's `pat in s` substring test (also the semantics of the SQL
`LIKE '%pat%'` scans in this file: every pattern fed to those scans is
already lowercased on both sides, so the ASCII case folding SQLite applies
to `LIKE` is the identity there). -/
def containsSubstr (s pat : String) : Bool :=
  hasSublist s.toList pat.toList

/-- Worker for `pySplit`: accumulates the current word (reversed) while
scanning. -/
def pySplitChars : List Char → List Char → List String
  | acc, [] => if acc.isEmpty then [] else [acc.reverse.asString]
  | acc, c :: rest =>
    if c.isWhitespace then
      if acc.isEmpty then pySplitChars [] rest
      else acc.reverse.asString :: pySplitChars [] rest
    else pySplitChars (c :: acc) rest

/-- Python's no-argument `str.split()`: split on runs of whitespace,
producing no empty words. -/
def pySplit (s : String) : List String :=
  pySplitChars [] s.toList

/-- Python's `str.lower()` (character-wise lowercasing, as
`String.toLower`, but by structural recursion on the character list so
concrete instances evaluate). -/
def pyLower (s : String) : String :=
  (s.toList.map Char.toLower).asString

/-- Insert a comma after every third character; applied to the reversed
digit string this realises the thousands grouping of `f"{price:,.0f}"`. -/
def groupThrees : List Char → List Char
  | [] => []
  | [a] => [a]
  | [a, b] => [a, b]
  | [a, b, c] => [a, b, c]
  | a :: b :: c :: rest => a :: b :: c :: ',' :: groupThrees rest

/-- The price formatting of line 545: `f"₹{price:,.0f}"` (a stored REAL
never starts with `₹`, so the branch on line 544 always formats). -/
def formatPrice (price : Nat) : String :=
  "₹" ++ ((groupThrees (toString price).toList.reverse).reverse).asString

/- ---------------- emotion classifier (lines 134-164) ---------------- -/

/-- The `any(word in text_lower for word in ws)` keyword tests. -/
def wordsIn (text_lower : String) (ws : List String) : Bool :=
  ws.any fun w => containsSubstr text_lower w

/-- `detect_emotion` (lines 134-164).  The TextBlob polarity scorer is the
external primitive `scorer`; `none` stands for the scorer (or anything in
the `try` body) raising, which the `except` clause turns into
`("neutral", 0.3, "😐")`.  The subjectivity score is computed by the source
but never used, so it is not modelled. -/
def detect_emotion (scorer : String → Option ℚ) (text : String) : String × ℚ × String :=
  match scorer text with
  | none => ("neutral", 3/10, "😐")
  | some polarity =>
    let text_lower := pyLower text
    if (3 : ℚ)/10 < polarity then
      if wordsIn text_lower ["excited", "thrilled", "amazing", "fantastic"] then
        ("excited", |polarity|, "🎉")
      else
        ("happy", |polarity|, "😊")
    else if polarity < -((3 : ℚ)/10) then
      if wordsIn text_lower ["stress", "overwhelm", "pressure", "busy"] then
        ("stressed", |polarity|, "😰")
      else if wordsIn text_lower ["frustrat", "annoyed", "irritat", "upset"] then
        ("frustrated", |polarity|, "😤")
      else if wordsIn text_lower ["tired", "exhausted", "worn out"] then
        ("tired", |polarity|, "😴")
      else
        ("sad", |polarity|, "😢")
    else if polarity < -((1 : ℚ)/10) then
      ("confused", |polarity|, "🤔")
    else
      ("neutral", 3/10, "😐")

/- ---------------- source adapters ---------------- -/

/-- The code-fence stripping of lines 198-204: strip, drop a leading
`'''json` marker (7 characters), drop a trailing triple backtick, strip
again before parsing. -/
def stripCodeFence (s : String) : String :=
  let json_text := s.trim
  let json_text := if json_text.startsWith "```json" then json_text.drop 7 else json_text
  let json_text := if json_text.endsWith "```" then json_text.dropRight 3 else json_text
  json_text.trim

/-- `semantic_product_search` (lines 169-226).  `genResult` is the Gemini
call (`.error` = transport/API failure), `jsonParse` is the `json.loads`
primitive (`none` covers a parse error and any missing / wrongly-typed
field, all of which raise inside the `try` and yield `[]`).  `query` only
feeds the prompt, which is external. -/
def semantic_product_search (jsonParse : String → Option (List SemItem))
    (genResult : Except Unit String) (query : String) (limit : Nat) : List Product :=
  match genResult with
  | .error _ => []
  | .ok rtext =>
    match jsonParse (stripCodeFence rtext) with
    | none => []
    | some products_data =>
      (products_data.take limit).map fun item =>
        let price := if item.price.startsWith "₹" then item.price else "₹" ++ item.price
        { title := item.title.take 80
          price := price
          description := item.description.take 200
          category := item.category.getD "General"
          rating := "⭐⭐⭐⭐ AI Curated"
          stock := "Available"
          brand := "AI Curated"
          source := "Semantic AI Match 🧠"
          link := "" }

/-- `search_web_products` (lines 229-285).  `priceFromSnippet` is the
three-regex `re.search` chain of lines 258-262 returning the captured
digit group; `httpResult` is the HTTP call (`.error` = transport error,
timeout, `raise_for_status` on a non-2xx, or an unparseable JSON body).
The title cleaning `re.sub(r'[|\-].*', '', title).strip()` keeps the text
before the first `|` or `-`. -/
def search_web_products (priceFromSnippet : String → Option String)
    (apiKey engineId : String) (httpResult : Except Unit (List WebItem))
    (query : String) (limit : Nat) : List Product :=
  if apiKey = "" ∨ engineId = "" then []
  else
    match httpResult with
    | .error _ => []
    | .ok items =>
      (items.map fun item =>
        let price := match priceFromSnippet item.snippet with
          | some grp => "₹" ++ grp
          | none => "See website"
        let title := (((item.title.take 80).toList.takeWhile
          fun c => c != '|' && c != '-').asString).trim
        { title := title
          price := price
          description := item.snippet.take 180 ++ "..."
          category := "Web Search Result"
          rating := "See reviews online ⭐"
          stock := "Check availability"
          brand := "Various Indian Retailers"
          source := "Real Web Search 🌐"
          link := item.link }).take limit

/-- `search_business_products` (lines 506-561).  `dbResult` holds the rows
the SQL query of lines 512-537 fetched (filtering on `is_active`, the
emotion/keyword `LIKE` conditions, `ORDER BY created_date DESC LIMIT 6`
are executed by SQLite); `.error` is any sqlite exception, which the
`except` clause turns into `[]`. -/
def search_business_products (dbResult : Except Unit (List BizRow)) : List Product :=
  match dbResult with
  | .error _ => []
  | .ok rows =>
    rows.map fun row =>
      { title := row.name
        price := formatPrice row.price
        description := row.description
        category := row.category
        rating := "Local Business ⭐"
        stock := if 0 < row.stock_quantity then toString row.stock_quantity else "Limited Stock"
        brand := row.business_name
        source := "Local Business 🏪"
        link := "" }

/-- `context_aware_ai_search` (lines 288-347).  `contextResp` is the Gemini
category-selection call; on success its text is split on commas and each
category is fetched from DummyJSON (limit 3), topping up from FakeStore
(limit 2) while fewer than 6 products are collected.  `emotion`, `query`
and the clock only feed the prompt, which is external. -/
def context_aware_ai_search (dummyjson_category fakestore_category : String → Nat → List Product)
    (contextResp : Except Unit String) (emotion query : String) : List Product × String :=
  match contextResp with
  | .error _ => ([], "")
  | .ok rtext =>
    let categories := (rtext.trim.splitOn ",").map (fun cat => cat.trim)
    let all_products := (categories.take 2).foldl
      (fun acc category =>
        let acc := acc ++ dummyjson_category category 3
        if acc.length < 6 then acc ++ fakestore_category category 2 else acc)
      []
    if all_products.isEmpty then ([], "")
    else (all_products.take 6, "🎯 Context-aware AI chose: " ++ String.intercalate ", " categories)

/- ---------------- pattern store (lines 350-419) ---------------- -/

/-- `' '.join(query.lower().split()[:3])` — the stored key prefix
(line 389). -/
def queryPattern (query : String) : String :=
  String.intercalate " " ((pySplit (pyLower query)).take 3)

/-- `','.join(categories)` (line 390). -/
def catStr (categories : List String) : String :=
  String.intercalate "," categories

/-- The exact-match `WHERE` clause of the SELECT on lines 393-396. -/
def patternKeyMatches (query emotion : String) (categories : List String)
    (r : PatternRow) : Bool :=
  r.query_pattern == queryPattern query && r.emotion == emotion
    && r.successful_categories == catStr categories

/-- The rowid SQLite assigns to a fresh `successful_patterns` insert
(one more than the largest existing id). -/
def nextId (patterns : List PatternRow) : Nat :=
  (patterns.map PatternRow.id).foldr max 0 + 1

/-- `save_successful_pattern` (lines 383-419): select the row matching
(query_pattern, emotion, successful_categories) exactly; if found bump its
counter and refresh its timestamp, otherwise insert a fresh row with
counter 1. -/
def save_successful_pattern (query emotion : String) (categories : List String)
    (now : Nat) (patterns : List PatternRow) : List PatternRow :=
  match patterns.find? (patternKeyMatches query emotion categories) with
  | some existing =>
    patterns.map fun r =>
      if r.id = existing.id then
        { r with success_count := r.success_count + 1, last_success := now }
      else r
  | none =>
    patterns ++ [{ id := nextId patterns
                   query_pattern := queryPattern query
                   emotion := emotion
                   successful_categories := catStr categories
                   success_count := 1
                   last_success := now }]

/-- `ORDER BY success_count DESC, last_success DESC`: `b` sorts strictly
before `a`. -/
def betterRow (a b : PatternRow) : Bool :=
  a.success_count < b.success_count
    || (a.success_count == b.success_count && a.last_success < b.last_success)

/-- `LIMIT 1` under the order above (ties keep the earlier row; SQLite
leaves tie order unspecified and no claim depends on it). -/
def selectBestRow : List PatternRow → Option PatternRow
  | [] => none
  | r :: rs => some (rs.foldl (fun best x => if betterRow best x then x else best) r)

/-- `get_successful_recommendations` (lines 350-381).  With no query words
the generated SQL ends in `AND ( )` — an empty parenthesised disjunction —
which SQLite rejects; the `except` clause turns that error into `{}`,
modelled as `none`.  Otherwise the best row whose stored pattern contains
any query word (emotion matching exactly) yields its categories and
count. -/
def get_successful_recommendations (query emotion : String)
    (patterns : List PatternRow) : Option PatternHit :=
  let query_words := pySplit (pyLower query)
  if query_words.isEmpty then
    none
  else
    let matchedRows := patterns.filter fun r =>
      r.emotion == emotion && query_words.any fun w => containsSubstr r.query_pattern w
    match selectBestRow matchedRows with
    | none => none
    | some r => some { categories := r.successful_categories.splitOn ","
                       success_count := r.success_count }

/- ---------------- feedback recorder (lines 670-693) ---------------- -/

/-- `save_product_feedback` (lines 670-693): always insert a
`product_feedback` row; on `perfect_match` additionally re-derive the
emotion from the query and record a success pattern with the literal
category list `["general"]` (line 689).  `scorer` is the TextBlob primitive
`detect_emotion` consumes. -/
def save_product_feedback (scorer : String → Option ℚ)
    (product_name user_query feedback_type source : String) (now : Nat)
    (db : MarketDb) : MarketDb :=
  let row : FeedbackRow :=
    { product_name := product_name
      user_query := user_query
      feedback_type := feedback_type
      recommendation_source := source
      created_date := now }
  let db1 : MarketDb := { db with product_feedback := db.product_feedback ++ [row] }
  if feedback_type = "perfect_match" then
    let emotion := (detect_emotion scorer user_query).1
    { db1 with successful_patterns :=
        save_successful_pattern user_query emotion ["general"] now db1.successful_patterns }
  else
    db1

/- ---------------- orchestrator (lines 564-650) ---------------- -/

/-- Everything `neurochat_product_search` observes from outside: the sqlite
rows behind the local-business query, the `successful_patterns` table, the
two static-catalog fetchers, the Gemini/HTTP/parser oracles for the
semantic, web, context and fallback steps, the no-filter DummyJSON result
backing the safety step, and the elapsed time measured at the return
site. -/
structure OrchEnv where
  bizDb : Except Unit (List BizRow)
  patterns : List PatternRow
  dummyjson_category : String → Nat → List Product
  fakestore_category : String → Nat → List Product
  semParse : String → Option (List SemItem)
  semGen : Except Unit String
  webPrice : String → Option String
  webApiKey : String
  webEngineId : String
  webHttp : Except Unit (List WebItem)
  contextResp : Except Unit String
  fallbackResp : Except Unit String
  safety_products : List Product
  elapsed : Nat

/-- The observable outcome of one orchestration call: the returned
(products, message) pair, the `recommendation_analytics` rows inserted
during the call, and the names of the strategy steps whose adapter was
actually invoked, in order. -/
structure OrchResult where
  products : List Product
  message : String
  analytics : List AnalyticsRow
  attempted : List String

/-- Guard of step 3 (line 589): `query.strip() and len(query.strip()) > 3`. -/
def sem_attempted (query : String) : Bool :=
  decide (3 < query.trim.length)

/-- Guard of step 4 (line 597): `query.strip()` is truthy. -/
def web_attempted (query : String) : Bool :=
  !query.trim.isEmpty

/-- The steps whose adapters have run once control falls through to
step 4: steps 1 and 2 always, step 3 only when its query guard held. -/
def attempted_through_semantic (query : String) : List String :=
  ["Local Business", "Historical Pattern"]
    ++ (if sem_attempted query then ["Semantic AI"] else [])

/-- The steps whose adapters have run once control falls through to
step 5: steps 1 and 2 always, steps 3 and 4 only when their query guards
held. -/
def attempted_before_context (query : String) : List String :=
  attempted_through_semantic query
    ++ (if web_attempted query then ["Web Search"] else [])

/-- Step 1 (lines 568-573): terminate with the local-business products if
any. -/
def step_local (emotion query : String) (env : OrchEnv) : Option OrchResult :=
  let business_products := search_business_products env.bizDb
  if business_products.isEmpty then none
  else some
    { products := business_products
      message := "🏪 Found " ++ toString business_products.length
        ++ " products from caring local businesses"
      analytics := [⟨query, emotion, "Local Business", business_products.length, env.elapsed⟩]
      attempted := ["Local Business"] }

/-- Step 2 (lines 575-586): on a pattern hit with count > 2, fan out to
DummyJSON for the top-2 categories (limit 3 each) and terminate with the
first 6 results if any.  The analytics row logs the un-capped count
(line 585 runs before the `[:6]` on line 586). -/
def step_pattern (emotion query : String) (env : OrchEnv) : Option OrchResult :=
  match get_successful_recommendations query emotion env.patterns with
  | none => none
  | some historical_success =>
    if 2 < historical_success.success_count then
      let pattern_products := (historical_success.categories.take 2).foldl
        (fun acc category => acc ++ env.dummyjson_category category 3) []
      if pattern_products.isEmpty then none
      else some
        { products := pattern_products.take 6
          message := "📊 Using proven successful pattern (used "
            ++ toString historical_success.success_count ++ " times)"
          analytics := [⟨query, emotion, "Historical Pattern", pattern_products.length, env.elapsed⟩]
          attempted := ["Local Business", "Historical Pattern"] }
    else none

/-- Step 3 (lines 588-594): only for trimmed queries longer than 3
characters; terminate when the semantic adapter yields at least 3
products. -/
def step_semantic (emotion query : String) (env : OrchEnv) : Option OrchResult :=
  if sem_attempted query then
    let semantic_products := semantic_product_search env.semParse env.semGen query 6
    if 3 ≤ semantic_products.length then some
      { products := semantic_products
        message := "🧠 AI generated perfect matches for your needs"
        analytics := [⟨query, emotion, "Semantic AI", semantic_products.length, env.elapsed⟩]
        attempted := ["Local Business", "Historical Pattern", "Semantic AI"] }
    else none
  else none

/-- Step 4 (lines 596-602): only for non-blank queries; terminate when the
web adapter yields at least 3 products. -/
def step_web (emotion query : String) (env : OrchEnv) : Option OrchResult :=
  if web_attempted query then
    let web_products := search_web_products env.webPrice env.webApiKey env.webEngineId
      env.webHttp query 6
    if 3 ≤ web_products.length then some
      { products := web_products
        message := "🌐 Found real products from across the web"
        analytics := [⟨query, emotion, "Web Search", web_products.length, env.elapsed⟩]
        attempted := attempted_through_semantic query ++ ["Web Search"] }
    else none
  else none

/-- Step 5 (lines 604-609): terminate when the context-aware adapter
returns any products. -/
def step_context (emotion query : String) (env : OrchEnv) : Option OrchResult :=
  let cm := context_aware_ai_search env.dummyjson_category env.fakestore_category
    env.contextResp emotion query
  if cm.1.isEmpty then none
  else some
    { products := cm.1
      message := cm.2
      analytics := [⟨query, emotion, "Context AI", cm.1.length, env.elapsed⟩]
      attempted := attempted_before_context query ++ ["Context AI"] }

/-- Step 6 (lines 611-639): ask Gemini for one category (an exception falls
through to step 7), fetch it from DummyJSON falling back to FakeStore, and
terminate if anything came back. -/
def step_fallback (emotion query : String) (env : OrchEnv) : Option OrchResult :=
  match env.fallbackResp with
  | .error _ => none
  | .ok rtext =>
    let fallback_category := pyLower rtext.trim
    let fallback_products := env.dummyjson_category fallback_category 6
    let fallback_products :=
      if fallback_products.isEmpty then env.fakestore_category fallback_category 6
      else fallback_products
    if fallback_products.isEmpty then none
    else some
      { products := fallback_products
        message := "🤖 AI chose " ++ fallback_category ++ " products for your "
          ++ emotion ++ " mood"
        analytics := [⟨query, emotion, "AI Fallback", fallback_products.length, env.elapsed⟩]
        attempted := attempted_before_context query ++ ["Context AI", "AI Fallback"] }

/-- Step 7 (lines 641-650): the unconditional terminal — generic DummyJSON
top-6, and the "still learning" empty result when even that is empty. -/
def step_safety (emotion query : String) (env : OrchEnv) : OrchResult :=
  let safety_products := env.safety_products
  if safety_products.isEmpty then
    { products := []
      message := "🧠 I'm still learning! Try describing what you need differently."
      analytics := [⟨query, emotion, "No Results", 0, env.elapsed⟩]
      attempted := attempted_before_context query ++ ["Context AI", "AI Fallback", "Safety Fallback"] }
  else
    { products := safety_products
      message := "🛍️ Here are some general products while I learn your preferences"
      analytics := [⟨query, emotion, "Safety Fallback", safety_products.length, env.elapsed⟩]
      attempted := attempted_before_context query ++ ["Context AI", "AI Fallback", "Safety Fallback"] }

/-- `neurochat_product_search` (lines 564-650): the seven-step fallback
chain, each early `return` of the Python becoming the first step that
produces a result. -/
def neurochat_product_search (emotion query : String) (env : OrchEnv) : OrchResult :=
  match step_local emotion query env with
  | some r => r
  | none =>
  match step_pattern emotion query env with
  | some r => r
  | none =>
  match step_semantic emotion query env with
  | some r => r
  | none =>
  match step_web emotion query env with
  | some r => r
  | none =>
  match step_context emotion query env with
  | some r => r
  | none =>
  match step_fallback emotion query env with
  | some r => r
  | none => step_safety emotion query env

/-- The strategy name a call logged (the analytics list is always a
singleton, see `orchestrator_one_record`). -/
def usedMethod (r : OrchResult) : Option String :=
  (r.analytics.map AnalyticsRow.recommendation_method).head?

/-- The seven strategy names plus the empty terminal, as logged. -/
def methodNames : List String :=
  ["Local Business", "Historical Pattern", "Semantic AI", "Web Search",
   "Context AI", "AI Fallback", "Safety Fallback", "No Results"]

/-- An environment in which every external source fails or is empty. -/
def envEmpty : OrchEnv :=
  { bizDb := .ok []
    patterns := []
    dummyjson_category := fun _ _ => []
    fakestore_category := fun _ _ => []
    semParse := fun _ => none
    semGen := .error ()
    webPrice := fun _ => none
    webApiKey := ""
    webEngineId := ""
    webHttp := .error ()
    contextResp := .error ()
    fallbackResp := .error ()
    safety_products := []
    elapsed := 0 }

/-- A sample local-business row for concrete evaluations. -/
def bizRow1 : BizRow :=
  { name := "Handmade Stress Relief Candle"
    description := "Relaxing lavender candle"
    price := 2500
    category := "handmade"
    target_emotions := "stressed"
    stock_quantity := 10
    business_name := "Calm Corner" }

/-- `envEmpty` with one active local-business row. -/
def env1 : OrchEnv :=
  { envEmpty with bizDb := .ok [bizRow1] }

/- ---------------- shared helper lemmas ---------------- -/

theorem foldr_max_is_ub (l : List Nat) : ∀ n ∈ l, n ≤ l.foldr max 0 := by
  induction l with
  | nil => intro n hn; cases hn
  | cons a t ih =>
    intro n hn
    rcases List.mem_cons.mp hn with rfl | hm
    · simp only [List.foldr]; exact le_max_left _ _
    · simp only [List.foldr]; exact le_trans (ih n hm) (le_max_right _ _)

theorem id_lt_nextId {patterns : List PatternRow} {r : PatternRow} (h : r ∈ patterns) :
    r.id < nextId patterns := by
  have hub := foldr_max_is_ub (patterns.map PatternRow.id) r.id
    (List.mem_map_of_mem PatternRow.id h)
  unfold nextId
  omega

/-- The analytics/trace invariant every step result satisfies: one row,
carrying the call's query, emotion and elapsed time and one of the logged
strategy names, with at most seven steps attempted. -/
abbrev goodRecord (emotion query : String) (env : OrchEnv) (r : OrchResult) : Prop :=
  r.analytics.length = 1 ∧
  (∀ a ∈ r.analytics, a.user_query = query ∧ a.user_emotion = emotion ∧
    a.response_time = env.elapsed ∧ a.recommendation_method ∈ methodNames) ∧
  r.attempted.length ≤ 7

theorem attempted_through_semantic_length (query : String) :
    (attempted_through_semantic query).length ≤ 3 := by
  unfold attempted_through_semantic
  split <;> decide

theorem attempted_before_context_length (query : String) :
    (attempted_before_context query).length ≤ 4 := by
  unfold attempted_before_context
  have := attempted_through_semantic_length query
  split <;> simp only [List.length_append] <;> simp <;> omega


theorem step_local_shape (emotion query : String) (env : OrchEnv) (r : OrchResult)
    (h : step_local emotion query env = some r) :
    usedMethod r = some "Local Business" ∧ goodRecord emotion query env r := by
  simp only [step_local] at h
  repeat' split at h
  any_goals exact Option.noConfusion h
  all_goals
    injection h with h2
    subst h2
    refine ⟨rfl, rfl, ?_, ?_⟩
    · intro a ha
      simp only [List.mem_singleton] at ha
      subst ha
      exact ⟨rfl, rfl, rfl, by simp [methodNames]⟩
    · simp only [List.length_append, List.length_cons, List.length_nil]
      omega

theorem step_pattern_shape (emotion query : String) (env : OrchEnv) (r : OrchResult)
    (h : step_pattern emotion query env = some r) :
    usedMethod r = some "Historical Pattern" ∧ goodRecord emotion query env r := by
  simp only [step_pattern] at h
  repeat' split at h
  any_goals exact Option.noConfusion h
  all_goals
    injection h with h2
    subst h2
    refine ⟨rfl, rfl, ?_, ?_⟩
    · intro a ha
      simp only [List.mem_singleton] at ha
      subst ha
      exact ⟨rfl, rfl, rfl, by simp [methodNames]⟩
    · simp only [List.length_append, List.length_cons, List.length_nil]
      omega

theorem step_semantic_shape (emotion query : String) (env : OrchEnv) (r : OrchResult)
    (h : step_semantic emotion query env = some r) :
    usedMethod r = some "Semantic AI" ∧ goodRecord emotion query env r := by
  simp only [step_semantic] at h
  repeat' split at h
  any_goals exact Option.noConfusion h
  all_goals
    injection h with h2
    subst h2
    refine ⟨rfl, rfl, ?_, ?_⟩
    · intro a ha
      simp only [List.mem_singleton] at ha
      subst ha
      exact ⟨rfl, rfl, rfl, by simp [methodNames]⟩
    · simp only [List.length_append, List.length_cons, List.length_nil]
      omega

theorem step_web_shape (emotion query : String) (env : OrchEnv) (r : OrchResult)
    (h : step_web emotion query env = some r) :
    usedMethod r = some "Web Search" ∧ goodRecord emotion query env r := by
  have hts := attempted_through_semantic_length query
  simp only [step_web] at h
  repeat' split at h
  any_goals exact Option.noConfusion h
  all_goals
    injection h with h2
    subst h2
    refine ⟨rfl, rfl, ?_, ?_⟩
    · intro a ha
      simp only [List.mem_singleton] at ha
      subst ha
      exact ⟨rfl, rfl, rfl, by simp [methodNames]⟩
    · simp only [List.length_append, List.length_cons, List.length_nil]
      omega

theorem step_context_shape (emotion query : String) (env : OrchEnv) (r : OrchResult)
    (h : step_context emotion query env = some r) :
    usedMethod r = some "Context AI" ∧ goodRecord emotion query env r := by
  have hbc := attempted_before_context_length query
  simp only [step_context] at h
  repeat' split at h
  any_goals exact Option.noConfusion h
  all_goals
    injection h with h2
    subst h2
    refine ⟨rfl, rfl, ?_, ?_⟩
    · intro a ha
      simp only [List.mem_singleton] at ha
      subst ha
      exact ⟨rfl, rfl, rfl, by simp [methodNames]⟩
    · simp only [List.length_append, List.length_cons, List.length_nil]
      omega

theorem step_fallback_shape (emotion query : String) (env : OrchEnv) (r : OrchResult)
    (h : step_fallback emotion query env = some r) :
    usedMethod r = some "AI Fallback" ∧ goodRecord emotion query env r := by
  have hbc := attempted_before_context_length query
  simp only [step_fallback] at h
  repeat' split at h
  any_goals exact Option.noConfusion h
  all_goals
    injection h with h2
    subst h2
    refine ⟨rfl, rfl, ?_, ?_⟩
    · intro a ha
      simp only [List.mem_singleton] at ha
      subst ha
      exact ⟨rfl, rfl, rfl, by simp [methodNames]⟩
    · simp only [List.length_append, List.length_cons, List.length_nil]
      omega

theorem step_safety_shape (emotion query : String) (env : OrchEnv) :
    (usedMethod (step_safety emotion query env) = some "Safety Fallback" ∨
      usedMethod (step_safety emotion query env) = some "No Results") ∧
    goodRecord emotion query env (step_safety emotion query env) := by
  have hbc := attempted_before_context_length query
  simp only [step_safety]
  split
  · refine ⟨Or.inr rfl, rfl, ?_, ?_⟩
    · intro a ha
      simp only [List.mem_singleton] at ha
      subst ha
      exact ⟨rfl, rfl, rfl, by simp [methodNames]⟩
    · simp only [List.length_append, List.length_cons, List.length_nil]
      omega
  · refine ⟨Or.inl rfl, rfl, ?_, ?_⟩
    · intro a ha
      simp only [List.mem_singleton] at ha
      subst ha
      exact ⟨rfl, rfl, rfl, by simp [methodNames]⟩
    · simp only [List.length_append, List.length_cons, List.length_nil]
      omega

/- ---------------- claim theorems ---------------- -/

/-- C1: if the Local Business adapter returns at least one product, the
Orchestrator terminates at step 1 with exactly those products, logs the
"Local Business" strategy, and invokes no later adapter — for every
(query, emotion) and every behaviour of the later sources (`env` is
arbitrary beyond the hypothesis). -/
theorem local_business_short_circuit (emotion query : String) (env : OrchEnv)
    (h : search_business_products env.bizDb ≠ []) :
    (neurochat_product_search emotion query env).products = search_business_products env.bizDb ∧
    usedMethod (neurochat_product_search emotion query env) = some "Local Business" ∧
    (neurochat_product_search emotion query env).attempted = ["Local Business"] := by
  have hne : (search_business_products env.bizDb).isEmpty = false := by
    cases hc : search_business_products env.bizDb with
    | nil => exact absurd hc h
    | cons a t => rfl
  unfold neurochat_product_search
  simp [step_local, hne, usedMethod]

/-- C1 witness: a store with one active local-business row short-circuits
at step 1. -/
theorem local_business_short_circuit_witness :
    search_business_products env1.bizDb ≠ [] ∧
    (neurochat_product_search "stressed" "candle" env1).products
      = search_business_products env1.bizDb := by
  have h : search_business_products env1.bizDb ≠ [] := by
    simp [env1, envEmpty, bizRow1, search_business_products]
  exact ⟨h, (local_business_short_circuit "stressed" "candle" env1 h).1⟩

/-- C3: every orchestration call stays within the seven-step chain (at most
seven steps attempted, the logged strategy one of the seven names or the
"No Results" terminal) and inserts exactly one analytics row, carrying the
call's query, emotion, strategy name and elapsed time — on every return
path, the all-empty terminal included. -/
theorem orchestrator_one_record (emotion query : String) (env : OrchEnv) :
    (neurochat_product_search emotion query env).analytics.length = 1 ∧
    (∀ a ∈ (neurochat_product_search emotion query env).analytics,
      a.user_query = query ∧ a.user_emotion = emotion ∧
      a.response_time = env.elapsed ∧ a.recommendation_method ∈ methodNames) ∧
    (neurochat_product_search emotion query env).attempted.length ≤ 7 := by
  unfold neurochat_product_search
  cases h1 : step_local emotion query env with
  | some r => exact (step_local_shape emotion query env r h1).2
  | none =>
  cases h2 : step_pattern emotion query env with
  | some r => exact (step_pattern_shape emotion query env r h2).2
  | none =>
  cases h3 : step_semantic emotion query env with
  | some r => exact (step_semantic_shape emotion query env r h3).2
  | none =>
  cases h4 : step_web emotion query env with
  | some r => exact (step_web_shape emotion query env r h4).2
  | none =>
  cases h5 : step_context emotion query env with
  | some r => exact (step_context_shape emotion query env r h5).2
  | none =>
  cases h6 : step_fallback emotion query env with
  | some r => exact (step_fallback_shape emotion query env r h6).2
  | none => exact (step_safety_shape emotion query env).2

/-- C2: once step 1 found nothing, the call logs "Historical Pattern"
exactly when the Pattern Store lookup hit a row with successCount > 2 and
the fan-out over the row's top-2 categories (DummyJSON, limit 3 each) is
non-empty; in particular a hit with successCount ≤ 2 never short-circuits
step 2, whatever the fan-out would return. -/
theorem historical_pattern_gate (emotion query : String) (env : OrchEnv)
    (h1 : search_business_products env.bizDb = []) :
    usedMethod (neurochat_product_search emotion query env) = some "Historical Pattern" ↔
      ∃ hs, get_successful_recommendations query emotion env.patterns = some hs ∧
        2 < hs.success_count ∧
        (hs.categories.take 2).foldl
          (fun acc category => acc ++ env.dummyjson_category category 3) [] ≠ [] := by
  have hl : step_local emotion query env = none := by
    simp [step_local, h1]
  unfold neurochat_product_search
  rw [hl]
  cases hp : step_pattern emotion query env with
  | some r =>
    constructor
    · intro _
      simp only [step_pattern] at hp
      split at hp
      · exact Option.noConfusion hp
      · rename_i hs heq
        split at hp
        · rename_i hgt
          split at hp
          · exact Option.noConfusion hp
          · rename_i hnemp
            refine ⟨hs, heq, hgt, ?_⟩
            intro hcon
            apply hnemp
            rw [hcon]
            rfl
        · exact Option.noConfusion hp
    · intro _
      exact (step_pattern_shape emotion query env r hp).1
  | none =>
    constructor
    · intro hm
      exfalso
      cases h3 : step_semantic emotion query env with
      | some r =>
        rw [h3] at hm
        have hm2 : usedMethod r = some "Historical Pattern" := hm
        rw [(step_semantic_shape emotion query env r h3).1] at hm2
        exact absurd (Option.some.inj hm2) (by decide)
      | none =>
      cases h4 : step_web emotion query env with
      | some r =>
        rw [h3, h4] at hm
        have hm2 : usedMethod r = some "Historical Pattern" := hm
        rw [(step_web_shape emotion query env r h4).1] at hm2
        exact absurd (Option.some.inj hm2) (by decide)
      | none =>
      cases h5 : step_context emotion query env with
      | some r =>
        rw [h3, h4, h5] at hm
        have hm2 : usedMethod r = some "Historical Pattern" := hm
        rw [(step_context_shape emotion query env r h5).1] at hm2
        exact absurd (Option.some.inj hm2) (by decide)
      | none =>
      cases h6 : step_fallback emotion query env with
      | some r =>
        rw [h3, h4, h5, h6] at hm
        have hm2 : usedMethod r = some "Historical Pattern" := hm
        rw [(step_fallback_shape emotion query env r h6).1] at hm2
        exact absurd (Option.some.inj hm2) (by decide)
      | none =>
        rw [h3, h4, h5, h6] at hm
        have hm2 : usedMethod (step_safety emotion query env) = some "Historical Pattern" := hm
        rcases (step_safety_shape emotion query env).1 with hS | hN
        · rw [hS] at hm2
          exact absurd (Option.some.inj hm2) (by decide)
        · rw [hN] at hm2
          exact absurd (Option.some.inj hm2) (by decide)
    · rintro ⟨hs, hlook, hgt, hne⟩
      exfalso
      simp only [step_pattern, hlook] at hp
      rw [if_pos hgt] at hp
      split at hp
      · rename_i hemp
        exact hne (List.isEmpty_iff.mp hemp)
      · exact Option.noConfusion hp

/-- C2 witness: with an empty local catalog the gate equivalence holds at a
concrete call (all sources empty, so neither side of the equivalence is
satisfied). -/
theorem historical_pattern_gate_witness :
    search_business_products envEmpty.bizDb = [] ∧
    (usedMethod (neurochat_product_search "happy" "a gift" envEmpty) = some "Historical Pattern" ↔
      ∃ hs, get_successful_recommendations "a gift" "happy" envEmpty.patterns = some hs ∧
        2 < hs.success_count ∧
        (hs.categories.take 2).foldl
          (fun acc category => acc ++ envEmpty.dummyjson_category category 3) [] ≠ []) := by
  exact ⟨rfl, historical_pattern_gate "happy" "a gift" envEmpty rfl⟩

/-- C9: a query with no whitespace-separated words makes the Pattern Store
lookup come back empty (the dynamically built SQL ends in an empty
parenthesised disjunction, SQLite rejects it, and the swallowed error
yields `{}`), so the HistoricalPattern step can never be the one that
short-circuits on such a query. -/
theorem wordless_query_no_pattern (emotion query : String) (env : OrchEnv)
    (h : pySplit (pyLower query) = []) :
    get_successful_recommendations query emotion env.patterns = none ∧
    usedMethod (neurochat_product_search emotion query env) ≠ some "Historical Pattern" := by
  have hlook : get_successful_recommendations query emotion env.patterns = none := by
    simp [get_successful_recommendations, h]
  refine ⟨hlook, ?_⟩
  intro hm
  cases h1 : step_local emotion query env with
  | some r =>
    rw [neurochat_product_search, h1] at hm
    have hm2 : usedMethod r = some "Historical Pattern" := hm
    rw [(step_local_shape emotion query env r h1).1] at hm2
    exact absurd (Option.some.inj hm2) (by decide)
  | none =>
    have hp : step_pattern emotion query env = none := by
      simp [step_pattern, hlook]
    rw [neurochat_product_search, h1, hp] at hm
    cases h3 : step_semantic emotion query env with
    | some r =>
      rw [h3] at hm
      have hm2 : usedMethod r = some "Historical Pattern" := hm
      rw [(step_semantic_shape emotion query env r h3).1] at hm2
      exact absurd (Option.some.inj hm2) (by decide)
    | none =>
    cases h4 : step_web emotion query env with
    | some r =>
      rw [h3, h4] at hm
      have hm2 : usedMethod r = some "Historical Pattern" := hm
      rw [(step_web_shape emotion query env r h4).1] at hm2
      exact absurd (Option.some.inj hm2) (by decide)
    | none =>
    cases h5 : step_context emotion query env with
    | some r =>
      rw [h3, h4, h5] at hm
      have hm2 : usedMethod r = some "Historical Pattern" := hm
      rw [(step_context_shape emotion query env r h5).1] at hm2
      exact absurd (Option.some.inj hm2) (by decide)
    | none =>
    cases h6 : step_fallback emotion query env with
    | some r =>
      rw [h3, h4, h5, h6] at hm
      have hm2 : usedMethod r = some "Historical Pattern" := hm
      rw [(step_fallback_shape emotion query env r h6).1] at hm2
      exact absurd (Option.some.inj hm2) (by decide)
    | none =>
      rw [h3, h4, h5, h6] at hm
      have hm2 : usedMethod (step_safety emotion query env) = some "Historical Pattern" := hm
      rcases (step_safety_shape emotion query env).1 with hS | hN
      · rw [hS] at hm2
        exact absurd (Option.some.inj hm2) (by decide)
      · rw [hN] at hm2
        exact absurd (Option.some.inj hm2) (by decide)

/-- C9 witness: an all-whitespace query has no words, its lookup is empty,
and the concrete call does not log "Historical Pattern". -/
theorem wordless_query_no_pattern_witness :
    pySplit (pyLower ("   " : String)) = [] ∧
    (get_successful_recommendations "   " "happy" envEmpty.patterns = none ∧
      usedMethod (neurochat_product_search "happy" "   " envEmpty) ≠ some "Historical Pattern") := by
  exact ⟨rfl, wordless_query_no_pattern "happy" "   " envEmpty rfl⟩

/-- C4: for a fixed scorer the classifier is the total function
`detect_emotion`, and when the scorer yields polarity `p` the ordered rule
holds: `p > 0.3` gives a positive label (excited/happy) with confidence
`|p|`; `p = 0.3` exactly is neutral (confidence 0.3); `p < -0.3` gives a
negative label (stressed/frustrated/tired/sad) with confidence `|p|`;
`p = -0.3` exactly falls to the confused branch; `-0.3 ≤ p < -0.1` is
confused with confidence `|p|`; `-0.1 ≤ p ≤ 0.3` is neutral with the fixed
confidence 0.3. -/
theorem detect_emotion_rule (scorer : String → Option ℚ) (text : String) (p : ℚ)
    (h : scorer text = some p) :
    ((3 : ℚ)/10 < p → (detect_emotion scorer text).2.1 = |p| ∧
      ((detect_emotion scorer text).1 = "excited" ∨ (detect_emotion scorer text).1 = "happy")) ∧
    (p = (3 : ℚ)/10 → detect_emotion scorer text = ("neutral", 3/10, "😐")) ∧
    (p < -((3 : ℚ)/10) → (detect_emotion scorer text).2.1 = |p| ∧
      (detect_emotion scorer text).1 ∈ (["stressed", "frustrated", "tired", "sad"] : List String)) ∧
    (p = -((3 : ℚ)/10) → detect_emotion scorer text = ("confused", |p|, "🤔")) ∧
    (-((3 : ℚ)/10) ≤ p → p < -((1 : ℚ)/10) → detect_emotion scorer text = ("confused", |p|, "🤔")) ∧
    (-((1 : ℚ)/10) ≤ p → p ≤ (3 : ℚ)/10 → detect_emotion scorer text = ("neutral", 3/10, "😐")) := by
  simp only [detect_emotion, h]
  refine ⟨?_, ?_, ?_, ?_, ?_, ?_⟩
  · intro hp
    rw [if_pos hp]
    cases hw : wordsIn (pyLower text) ["excited", "thrilled", "amazing", "fantastic"] <;> simp
  · intro hp
    subst hp
    rw [if_neg (by norm_num), if_neg (by norm_num), if_neg (by norm_num)]
  · intro hp
    rw [if_neg (by linarith), if_pos hp]
    split
    · simp
    · split
      · simp
      · split <;> simp
  · intro hp
    subst hp
    rw [if_neg (by norm_num), if_neg (by norm_num), if_pos (by norm_num)]
  · intro hp1 hp2
    rw [if_neg (by linarith), if_neg (by linarith), if_pos hp2]
  · intro hp1 hp2
    rw [if_neg (by linarith), if_neg (by linarith), if_neg (by linarith)]

/-- C4 witness: at polarity exactly 0.3 the classifier is neutral with the
fixed confidence 0.3. -/
theorem detect_emotion_rule_witness :
    (fun _ : String => some ((3 : ℚ)/10)) "a gift" = some ((3 : ℚ)/10) ∧
    detect_emotion (fun _ => some ((3 : ℚ)/10)) "a gift" = ("neutral", 3/10, "😐") := by
  exact ⟨rfl, (detect_emotion_rule (fun _ => some ((3 : ℚ)/10)) "a gift" ((3 : ℚ)/10) rfl).2.1 rfl⟩

theorem list_find_append_none {α : Type} (p : α → Bool) (l₁ l₂ : List α)
    (h : l₁.find? p = none) : (l₁ ++ l₂).find? p = l₂.find? p := by
  rw [List.find?_append, h, Option.none_or]

theorem save_found (query emotion : String) (categories : List String) (now : Nat)
    (patterns : List PatternRow) (ex : PatternRow)
    (hfind : patterns.find? (patternKeyMatches query emotion categories) = some ex) :
    save_successful_pattern query emotion categories now patterns =
      patterns.map fun r =>
        if r.id = ex.id then { r with success_count := r.success_count + 1, last_success := now }
        else r := by
  unfold save_successful_pattern
  rw [hfind]

theorem save_not_found (query emotion : String) (categories : List String) (now : Nat)
    (patterns : List PatternRow)
    (hnone : patterns.find? (patternKeyMatches query emotion categories) = none) :
    save_successful_pattern query emotion categories now patterns =
      patterns ++ [⟨nextId patterns, queryPattern query, emotion, catStr categories, 1, now⟩] := by
  unfold save_successful_pattern
  rw [hnone]

/-- C5: two sequential `recordSuccess` calls with identical
(query, emotion, categories) on a store holding no row for the derived key
leave the store extended by exactly one row for that key: the first call
inserts it with counter 1, the second increments the counter to 2 and
refreshes the timestamp, and no second row appears. -/
theorem record_success_twice_one_row (query emotion : String) (categories : List String)
    (t1 t2 : Nat) (patterns : List PatternRow)
    (h : ∀ r ∈ patterns, patternKeyMatches query emotion categories r = false) :
    save_successful_pattern query emotion categories t1 patterns =
      patterns ++ [⟨nextId patterns, queryPattern query, emotion, catStr categories, 1, t1⟩] ∧
    save_successful_pattern query emotion categories t2
        (save_successful_pattern query emotion categories t1 patterns) =
      patterns ++ [⟨nextId patterns, queryPattern query, emotion, catStr categories, 2, t2⟩] ∧
    ((patterns ++ [(⟨nextId patterns, queryPattern query, emotion, catStr categories, 2, t2⟩ :
        PatternRow)]).filter
        (patternKeyMatches query emotion categories)).map PatternRow.success_count = [2] := by
  have hnone : patterns.find? (patternKeyMatches query emotion categories) = none :=
    List.find?_eq_none.mpr fun x hx => by simp [h x hx]
  have hnewkey : patternKeyMatches query emotion categories
      ⟨nextId patterns, queryPattern query, emotion, catStr categories, 1, t1⟩ = true := by
    simp [patternKeyMatches]
  have h1 := save_not_found query emotion categories t1 patterns hnone
  refine ⟨h1, ?_, ?_⟩
  · rw [h1]
    have hfind2 : (patterns
          ++ [(⟨nextId patterns, queryPattern query, emotion, catStr categories, 1, t1⟩ :
            PatternRow)]).find? (patternKeyMatches query emotion categories) =
        some ⟨nextId patterns, queryPattern query, emotion, catStr categories, 1, t1⟩ := by
      rw [list_find_append_none _ _ _ hnone]
      exact List.find?_cons_of_pos _ hnewkey
    rw [save_found query emotion categories t2 _ _ hfind2, List.map_append]
    congr 1
    · refine (List.map_congr_left ?_).trans (List.map_id patterns)
      intro r hr
      rw [if_neg (Nat.ne_of_lt (id_lt_nextId hr))]
      rfl
    · simp
  · rw [List.filter_append]
    have hf : patterns.filter (patternKeyMatches query emotion categories) = [] :=
      List.filter_eq_nil_iff.mpr fun x hx => by simp [h x hx]
    rw [hf]
    simp [patternKeyMatches]

/-- C5 witness: on the empty store, recording the same
(query, emotion, categories) twice yields the single key row with
counter 2 and the refreshed timestamp. -/
theorem record_success_twice_one_row_witness :
    (∀ r ∈ ([] : List PatternRow),
      patternKeyMatches "I need a gift" "happy" ["general"] r = false) ∧
    save_successful_pattern "I need a gift" "happy" ["general"] 2
        (save_successful_pattern "I need a gift" "happy" ["general"] 1 []) =
      [] ++ [⟨nextId [], queryPattern "I need a gift", "happy", catStr ["general"], 2, 2⟩] := by
  have h : ∀ r ∈ ([] : List PatternRow),
      patternKeyMatches "I need a gift" "happy" ["general"] r = false := by
    intro r hr
    cases hr
  exact ⟨h, (record_success_twice_one_row "I need a gift" "happy" ["general"] 1 2 [] h).2.1⟩

/-- C7: on a perfect_match verdict the Feedback Recorder appends the
feedback event and then records a success pattern keyed by the emotion
re-derived from the query and the literal category list ["general"] —
never the accepted product's own category. -/
theorem feedback_accept_records_general (scorer : String → Option ℚ)
    (product_name user_query source : String) (now : Nat) (db : MarketDb) :
    save_product_feedback scorer product_name user_query "perfect_match" source now db =
      { product_feedback :=
          db.product_feedback ++ [⟨product_name, user_query, "perfect_match", source, now⟩]
        successful_patterns :=
          save_successful_pattern user_query (detect_emotion scorer user_query).1
            ["general"] now db.successful_patterns } := by
  simp [save_product_feedback]

/-- C10: on any verdict other than perfect_match the Feedback Recorder
only appends the feedback row; the successful_patterns store is left
completely unchanged. -/
theorem feedback_other_leaves_patterns (scorer : String → Option ℚ)
    (product_name user_query feedback_type source : String) (now : Nat) (db : MarketDb)
    (h : feedback_type ≠ "perfect_match") :
    save_product_feedback scorer product_name user_query feedback_type source now db =
      { db with product_feedback :=
          db.product_feedback ++ [⟨product_name, user_query, feedback_type, source, now⟩] } ∧
    (save_product_feedback scorer product_name user_query feedback_type source now
        db).successful_patterns = db.successful_patterns := by
  constructor
  · simp [save_product_feedback, h]
  · simp [save_product_feedback, h]

/-- C10 witness: a not_relevant verdict at a concrete input leaves the
pattern store untouched. -/
theorem feedback_other_leaves_patterns_witness :
    ("not_relevant" : String) ≠ "perfect_match" ∧
    (save_product_feedback (fun _ => none) "Lamp" "a desk lamp" "not_relevant" "Web" 3
        ⟨[], []⟩).successful_patterns = (⟨[], []⟩ : MarketDb).successful_patterns := by
  have h : ("not_relevant" : String) ≠ "perfect_match" := by decide
  exact ⟨h, (feedback_other_leaves_patterns (fun _ => none) "Lamp" "a desk lamp"
    "not_relevant" "Web" 3 ⟨[], []⟩ h).2⟩

/-- C8: each Source Adapter returns the empty list on every failure of its
underlying source — a transport/API error of the Gemini call, an
unparseable completion body, a web-search transport error / non-2xx /
timeout / bad JSON, or a sqlite error behind the local-business query —
rather than raising past its own boundary. -/
theorem adapters_swallow_failures (jsonParse : String → Option (List SemItem))
    (priceFromSnippet : String → Option String) (query rtext : String) (limit : Nat)
    (apiKey engineId : String) :
    semantic_product_search jsonParse (.error ()) query limit = [] ∧
    (jsonParse (stripCodeFence rtext) = none →
      semantic_product_search jsonParse (.ok rtext) query limit = []) ∧
    search_web_products priceFromSnippet apiKey engineId (.error ()) query limit = [] ∧
    search_business_products (.error ()) = [] := by
  refine ⟨rfl, ?_, ?_, rfl⟩
  · intro h
    simp only [semantic_product_search, h]
  · unfold search_web_products
    split
    · rfl
    · rfl

/-- C8 witness: an unparseable semantic body and a failed web request both
yield the empty list at concrete inputs. -/
theorem adapters_swallow_failures_witness :
    ((fun _ : String => (none : Option (List SemItem))) (stripCodeFence "not json") = none) ∧
    semantic_product_search (fun _ => none) (.ok "not json") "a gift" 6 = [] ∧
    search_web_products (fun _ => none) "key" "cx" (.error ()) "a gift" 6 = [] := by
  refine ⟨rfl, ?_, ?_⟩
  · exact (adapters_swallow_failures (fun _ => none) (fun _ => none) "a gift" "not json"
      6 "key" "cx").2.1 rfl
  · exact (adapters_swallow_failures (fun _ => none) (fun _ => none) "a gift" "not json"
      6 "key" "cx").2.2.1
